import Mathlib

/-!
Shallow embedding of the terminal interaction engine of the youtube-chat CLI
(command registry, command-palette dropdown, modal prompts, screen renderer,
and the raw-keypress chat session loop), together with proofs of the
behavioural properties stated in the project specification.

JavaScript strings are modelled by Lean `String`; the JS string methods the
code uses (`toLowerCase`, `trim`, `startsWith`, `includes`, ...) are modelled
explicitly over `String.data` so that their behaviour on the ASCII inputs the
program manipulates is exact.
-/

set_option autoImplicit false

namespace YoutubeChat

/-- Model of JS `String.prototype.toLowerCase` (exact on ASCII). -/
def jsToLower (s : String) : String := ⟨s.data.map Char.toLower⟩

/-- Model of JS `String.prototype.startsWith`. -/
def jsStartsWith (s p : String) : Bool := p.data.isPrefixOf s.data

/-- Model of JS `String.prototype.trim`: strip whitespace from both ends. -/
def jsTrim (s : String) : String :=
  ⟨((s.data.dropWhile Char.isWhitespace).reverse.dropWhile Char.isWhitespace).reverse⟩

/-- Model of JS `String.prototype.includes` for a single character. -/
def jsIncludesChar (s : String) (c : Char) : Bool := s.data.contains c

/-! ### Command registry (`src/ui/commands.js`) -/

/-- A command registry entry `{name, description, aliases}`. -/
structure Command where
  name : String
  description : String
  aliases : List String
deriving Repr, DecidableEq

/-- The static command registry `COMMANDS` from `commands.js`. -/
def COMMANDS : List Command :=
  [ { name := "/summarize", description := "Generate video summary", aliases := [] },
    { name := "/export", description := "Export conversation to file or clipboard", aliases := [] },
    { name := "/lang", description := "Change UI and transcript language", aliases := [] },
    { name := "/model", description := "Select AI model (OpenRouter)", aliases := [] },
    { name := "/quit", description := "Exit application (Ctrl+C)", aliases := ["/exit"] } ]

/-- `getCommand` from `commands.js`: normalize the input by lowercasing and
trimming, then find the first registry entry whose name equals the normalized
input or whose aliases contain it (`|| null` becomes `Option`). -/
def getCommand (input : String) : Option Command :=
  let normalized := jsTrim (jsToLower input)
  COMMANDS.find? fun cmd => cmd.name == normalized || cmd.aliases.contains normalized

/-! ### Command palette dropdown (`src/ui/input-handler.js`, `createInputHandler`) -/

/-- The filter in `renderDropdown`:
`COMMANDS.filter(cmd => cmd.name.startsWith(currentInput.toLowerCase()))`. -/
def filterCommands (currentInput : String) : List Command :=
  let searchTerm := jsToLower currentInput
  COMMANDS.filter fun cmd => jsStartsWith cmd.name searchTerm

/-- Observable effect of one dropdown update on the palette state. -/
inductive DropdownAction where
  | showDropdown (candidates : List Command) (selectedIndex : Nat)
  | hideDropdown
  | unchanged
deriving Repr, DecidableEq

/-- Effect of `renderDropdown(currentInput, rl)`: filter the registry by the
buffer text; an empty filter clears a visible dropdown, otherwise the
dropdown shows the filtered candidates (resetting an out-of-range
`selectedIndex` to 0). -/
def renderDropdownAction (currentInput : String) (selectedIndex : Nat)
    (dropdownVisible : Bool) : DropdownAction :=
  let filtered := filterCommands currentInput
  if filtered.length = 0 then
    if dropdownVisible then .hideDropdown else .unchanged
  else
    .showDropdown filtered (if filtered.length ≤ selectedIndex then 0 else selectedIndex)

/-- The deferred buffer-change hook installed by `attachKeypressHandler`
(the `setImmediate` callback): when the line changed and is command-prefixed
and non-empty, reset `selectedIndex` to 0 and render the dropdown; otherwise
clear a visible dropdown. -/
def onBufferChange (line lastLine : String) (dropdownVisible : Bool) : DropdownAction :=
  if line = lastLine then .unchanged
  else if jsStartsWith line "/" && decide (0 < line.length) then
    renderDropdownAction line 0 dropdownVisible
  else if dropdownVisible then .hideDropdown
  else .unchanged

/-! ### Dropdown navigation (`attachKeypressHandler` navigation branch) -/

/-- Navigation keys recognized while the dropdown is visible
(`j`/`k` are aliases of down/up). -/
inductive NavKey where
  | up | down | jKey | kKey
deriving Repr, DecidableEq

/-- One dropdown navigation step on `selectedIndex`:
down / `j`: `(selectedIndex + 1) % filteredCommands.length`;
up / `k`: `selectedIndex === 0 ? filteredCommands.length - 1 : selectedIndex - 1`. -/
def dropdownNavStep (numCandidates : Nat) (selectedIndex : Nat) (k : NavKey) : Nat :=
  match k with
  | .down => (selectedIndex + 1) % numCandidates
  | .jKey => (selectedIndex + 1) % numCandidates
  | .up => if selectedIndex = 0 then numCandidates - 1 else selectedIndex - 1
  | .kKey => if selectedIndex = 0 then numCandidates - 1 else selectedIndex - 1

/-! ### Select prompt (`createSelectionPrompt`) -/

/-- Keys handled by the select prompt's keypress handler. -/
inductive PromptKey where
  | up | down | enter | escape | ctrlC | other
deriving Repr, DecidableEq

/-- Observable state of one `createSelectionPrompt` invocation. -/
structure SelectPromptState where
  selectedIndex : Nat
  promptVisible : Bool
  listenerAttached : Bool
  rawMode : Bool
  resolved : Option (Option Nat)
  exitCode : Option Nat
deriving Repr, DecidableEq

/-- State right after `createSelectionPrompt(options, title, defaultIndex)`
sets up: raw mode enabled when the stream is a TTY, keypress listener
attached, prompt rendered. -/
def initSelectPrompt (isTTY prevRawMode : Bool) (defaultIndex : Nat) : SelectPromptState :=
  { selectedIndex := defaultIndex
    promptVisible := true
    listenerAttached := true
    rawMode := if isTTY then true else prevRawMode
    resolved := none
    exitCode := none }

/-- The select prompt's `keypressHandler`. `wasRawMode` is the raw-mode state
captured before the prompt started. On Enter / Escape the handler removes the
listener, restores `wasRawMode` (when TTY) and resolves; on Ctrl-C it removes
the listener and exits the process with code 0. -/
def selectPromptStep (isTTY wasRawMode : Bool) (numOptions : Nat)
    (s : SelectPromptState) (k : PromptKey) : SelectPromptState :=
  if !s.promptVisible then s else
  match k with
  | .down => { s with selectedIndex := (s.selectedIndex + 1) % numOptions }
  | .up => { s with selectedIndex :=
               if s.selectedIndex = 0 then numOptions - 1 else s.selectedIndex - 1 }
  | .enter =>
      { s with promptVisible := false
               listenerAttached := false
               rawMode := if isTTY then wasRawMode else s.rawMode
               resolved := some (some s.selectedIndex) }
  | .escape =>
      { s with promptVisible := false
               listenerAttached := false
               rawMode := if isTTY then wasRawMode else s.rawMode
               resolved := some none }
  | .ctrlC =>
      { s with promptVisible := false
               listenerAttached := false
               exitCode := some 0 }
  | .other => s

/-! ### Text prompt (`createTextPrompt`) -/

/-- Observable state of one `createTextPrompt` invocation. -/
structure TextPromptState where
  listenerAttached : Bool
  rawMode : Bool
  cancelled : Bool
  resolved : Bool
  result : Option (Option String)
deriving Repr, DecidableEq

/-- State right after `createTextPrompt` sets up (raw mode on when TTY,
escape-detection keypress listener attached, question shown). -/
def initTextPrompt (isTTY prevRawMode : Bool) : TextPromptState :=
  { listenerAttached := true
    rawMode := if isTTY then true else prevRawMode
    cancelled := false
    resolved := false
    result := none }

/-- Resolution value of the text prompt: `answer.trim() || defaultValue`. -/
def textPromptValue (answer defaultValue : String) : String :=
  if jsTrim answer = "" then defaultValue else jsTrim answer

/-- The `rl.question` callback of `createTextPrompt`: remove the keypress
listener, restore the prior raw-mode state (when TTY), close readline, and
resolve `answer.trim() || defaultValue`. -/
def textPromptAnswer (isTTY wasRawMode : Bool) (defaultValue : String)
    (s : TextPromptState) (answer : String) : TextPromptState :=
  if s.resolved then s else
  { s with resolved := true
           listenerAttached := false
           rawMode := if isTTY then wasRawMode else s.rawMode
           result := some (some (textPromptValue answer defaultValue)) }

/-- The Escape path of `createTextPrompt`: the keypress handler sets
`cancelled` and closes readline; the `close` listener then removes the
keypress listener, restores the prior raw-mode state (when TTY), and — since
`cancelled && !resolved` — resolves the cancellation sentinel. -/
def textPromptEscape (isTTY wasRawMode : Bool) (s : TextPromptState) : TextPromptState :=
  let s1 : TextPromptState := { s with cancelled := true }
  let s2 : TextPromptState :=
    { s1 with listenerAttached := false
              rawMode := if isTTY then wasRawMode else s1.rawMode }
  if s2.cancelled && !s2.resolved then
    { s2 with resolved := true, result := some none }
  else s2

/-! ### Screen renderer (`src/ui/console.js`, `renderChatScreen`) -/

/-- The placeholder condition of `renderChatScreen`: the dimmed
"Type your question..." line is shown iff
`!hasUserTypedOnce && currentInput.length === 0`. -/
def showsPlaceholder (hasUserTypedOnce : Bool) (currentInput : String) : Bool :=
  !hasUserTypedOnce && currentInput.length == 0

/-- The final cursor column set by `renderChatScreen` (the `\x1b[<col>G`
escape): `2 + actualCursorPos + 1`, where `actualCursorPos` defaults to the
input length when no cursor position is passed. -/
def renderCursorColumn (currentInput : String) (cursorPos : Option Nat) : Nat :=
  let actualCursorPos := cursorPos.getD currentInput.length
  2 + actualCursorPos + 1

/-! ### Export default filename (`src/services/export.js`) -/

/-- Decimal digit character. -/
def digitChar (n : Nat) : Char := Char.ofNat (48 + n)

/-- Two-digit zero-padded decimal field of a JS date string
(exact for values below 100, which is the range JS produces). -/
def pad2 (n : Nat) : String := ⟨[digitChar (n / 10 % 10), digitChar (n % 10)]⟩

/-- Three-digit zero-padded milliseconds field. -/
def pad3 (n : Nat) : String :=
  ⟨[digitChar (n / 100 % 10), digitChar (n / 10 % 10), digitChar (n % 10)]⟩

/-- Four-digit zero-padded year field. -/
def pad4 (n : Nat) : String :=
  ⟨[digitChar (n / 1000 % 10), digitChar (n / 100 % 10), digitChar (n / 10 % 10),
    digitChar (n % 10)]⟩

/-- The date components a JS `Date` renders: UTC fields feed `toISOString`,
local fields and the timezone suffix feed `toTimeString`. -/
structure JsDate where
  utcYear : Nat
  utcMonth : Nat
  utcDay : Nat
  utcHours : Nat
  utcMinutes : Nat
  utcSeconds : Nat
  utcMillis : Nat
  localHours : Nat
  localMinutes : Nat
  localSeconds : Nat
  tzSuffix : String
deriving Repr, DecidableEq

/-- Model of the JS builtin `Date.prototype.toISOString`:
`YYYY-MM-DDTHH:mm:ss.sssZ` over the UTC components. -/
def toISOString (d : JsDate) : String :=
  pad4 d.utcYear ++ "-" ++ pad2 d.utcMonth ++ "-" ++ pad2 d.utcDay ++ "T" ++
  pad2 d.utcHours ++ ":" ++ pad2 d.utcMinutes ++ ":" ++ pad2 d.utcSeconds ++ "." ++
  pad3 d.utcMillis ++ "Z"

/-- Model of the JS builtin `Date.prototype.toTimeString`:
`HH:mm:ss GMT±hhmm (Zone)` over the local components — everything from the
first space on is the timezone suffix. -/
def toTimeString (d : JsDate) : String :=
  pad2 d.localHours ++ ":" ++ pad2 d.localMinutes ++ ":" ++ pad2 d.localSeconds ++
  " " ++ d.tzSuffix

/-- Model of JS `String.prototype.replace` with a character-class regex and a
single-character replacement (`/[:.]/g` and `/:/g` in the source). -/
def jsReplaceChars (cls : Char → Bool) (r : Char) (s : String) : String :=
  ⟨s.data.map fun c => if cls c then r else c⟩

/-- Model of `s.split(sep)[0]`: the text before the first separator. -/
def jsSplitHead (sep : Char) (s : String) : String :=
  ⟨s.data.takeWhile fun c => c != sep⟩

/-- `getDefaultExportFilename` from `export.js`:
`conversation-<date>-<time>.txt` built from the ISO date and the local time. -/
def getDefaultExportFilename (now : JsDate) : String :=
  let dateStr := jsSplitHead 'T'
    (jsReplaceChars (fun c => c == ':' || c == '.') '-' (toISOString now))
  let timeStr := jsReplaceChars (fun c => c == ':') '-'
    (jsSplitHead ' ' (toTimeString now))
  "conversation-" ++ dateStr ++ "-" ++ timeStr ++ ".txt"

/-- Match a character list against a list of per-character predicates. -/
def matchesShape : List (Char → Bool) → List Char → Bool
  | [], [] => true
  | p :: ps, c :: cs => p c && matchesShape ps cs
  | _, _ => false

/-- Checker for the filename pattern `conversation-<date>-<time>.txt` with
`<date> = YYYY-MM-DD` and `<time> = HH-MM-SS` (digits at digit positions). -/
def matchesExportPattern (s : String) : Bool :=
  matchesShape
    ("conversation-".data.map (fun c => (· == c)) ++
     ([Char.isDigit, Char.isDigit, Char.isDigit, Char.isDigit, (· == '-'),
       Char.isDigit, Char.isDigit, (· == '-'), Char.isDigit, Char.isDigit, (· == '-'),
       Char.isDigit, Char.isDigit, (· == '-'), Char.isDigit, Char.isDigit, (· == '-'),
       Char.isDigit, Char.isDigit] ++
      ".txt".data.map (fun c => (· == c))))
    s.data

/-! ### Conversational session loop (`startChat`, raw-keypress variant) -/

/-- A displayed transcript entry (`chatHistory` element):
`{role: 'user'|'assistant'|'thinking', content, isMarkdown}`. -/
structure ChatMsg where
  role : String
  content : String
  isMarkdown : Bool := false
deriving Repr, DecidableEq

/-- A persistent conversation-history entry; the `new Date()` timestamp is
abstracted to the session's `Nat` tick. -/
structure ConvMsg where
  timestamp : Nat
  role : String
  content : String
deriving Repr, DecidableEq

/-- The mutable state of the raw-keypress `startChat` session. -/
structure ChatState where
  chatHistory : List ChatMsg
  conversationHistory : List ConvMsg
  currentInput : String
  cursorPosition : Nat
  hasUserTypedOnce : Bool
  isProcessing : Bool
  isTTY : Bool
  rawMode : Bool
  exitCode : Option Nat
  now : Nat
deriving Repr, DecidableEq

/-- Key events dispatched by the session's keypress handler. `char c` stands
for a printable keystroke (`str` present, no ctrl/meta modifier). -/
inductive ChatKey where
  | ctrlC
  | metaB
  | left
  | metaF
  | right
  | tab
  | backspace
  | enter
  | char (c : Char)
  | other
deriving Repr, DecidableEq

/-- `while (cp > 0 && p(input[cp-1])) cp--` — the leftward skip loops of the
word-left handler. -/
def skipLeftWhile (p : Char → Bool) (input : List Char) : Nat → Nat
  | 0 => 0
  | cp + 1 => if p (input.getD cp ' ') then skipLeftWhile p input cp else cp + 1

/-- `while (cp < input.length && p(input[cp])) cp++` — the rightward skip
loops of the word-right handler. -/
def skipRightWhile (p : Char → Bool) (input : List Char) (cp : Nat) : Nat :=
  if h : cp < input.length then
    if p (input.getD cp ' ') then skipRightWhile p input (cp + 1) else cp
  else cp
termination_by input.length - cp
decreasing_by omega

/-- Model of JS `String.prototype.lastIndexOf` for a single character
(the `-1` sentinel becomes `none`). -/
def jsLastIndexOfChar (s : String) (c : Char) : Option Nat :=
  match s.data.reverse.findIdx? (· == c) with
  | some i => some (s.data.length - 1 - i)
  | none => none

/-- The command list hardcoded in the session's tab-completion and
suggestion code. -/
def TAB_COMMANDS : List String := ["/lang", "/export", "/exit", "/quit"]

/-- The Tab branch of the keypress handler: find the word at the cursor; if
it is command-prefixed and matches exactly one hardcoded command, replace it
with the match and put the cursor after it. -/
def handleTab (s : ChatState) : ChatState :=
  let beforeCursor := s.currentInput.data.take s.cursorPosition
  let afterCursor := s.currentInput.data.drop s.cursorPosition
  let lastSpaceIndex := jsLastIndexOfChar ⟨beforeCursor⟩ ' '
  let currentWord : List Char :=
    match lastSpaceIndex with
    | none => beforeCursor
    | some i => beforeCursor.drop (i + 1)
  if jsStartsWith ⟨currentWord⟩ "/" then
    match TAB_COMMANDS.filter (fun cmd => jsStartsWith cmd ⟨currentWord⟩) with
    | [m] =>
        let before : List Char :=
          match lastSpaceIndex with
          | none => []
          | some i => s.currentInput.data.take (i + 1)
        { s with currentInput := ⟨before ++ m.data ++ afterCursor⟩
                 cursorPosition := (before ++ m.data).length }
    | _ => s
  else s

/-- The hint entry pushed when a submitted message contains `/` but does not
start with it. -/
def hintMsg : ChatMsg :=
  { role := "assistant"
    content := "Note: Commands must start with / (e.g., /lang, /export). Your message was treated as regular text." }

/-- The Enter (`return`) branch of the keypress handler, up to and including
its last synchronous effect. Empty (after trim) input only clears the buffer.
Otherwise `hasUserTypedOnce` is set; a message containing `/` not at position
0 first gets the hint entry; `/exit`·`/quit` leave raw mode and exit with
code 0; the `/lang` and `/export` modal flows end with the buffer and cursor
reset (their awaited handlers toggle raw mode off and back on); any other
message enters processing: the buffer is reset and the user entry plus the
transient thinking entry are appended. -/
def handleReturn (s : ChatState) : ChatState :=
  let userInput := jsTrim s.currentInput
  if userInput = "" then { s with currentInput := "" }
  else
    let s1 : ChatState := { s with hasUserTypedOnce := true }
    let s2 : ChatState :=
      if jsIncludesChar userInput '/' && !jsStartsWith userInput "/" then
        { s1 with chatHistory := s1.chatHistory ++ [hintMsg] }
      else s1
    if jsToLower userInput = "/exit" ∨ jsToLower userInput = "/quit" then
      { s2 with rawMode := if s2.isTTY then false else s2.rawMode, exitCode := some 0 }
    else if jsToLower userInput = "/lang" then
      { s2 with currentInput := "", cursorPosition := 0,
                rawMode := if s2.isTTY then true else s2.rawMode }
    else if jsToLower userInput = "/export" then
      { s2 with currentInput := "", cursorPosition := 0,
                rawMode := if s2.isTTY then true else s2.rawMode }
    else
      { s2 with isProcessing := true
                currentInput := ""
                cursorPosition := 0
                chatHistory := s2.chatHistory ++
                  [{ role := "user", content := userInput },
                   { role := "thinking", content := "Thinking..." }]
                conversationHistory := s2.conversationHistory ++
                  [{ timestamp := s2.now, role := "user", content := userInput }] }

/-- One keypress of the session handler. Keys are ignored once the process
exited or while `isProcessing` is set. -/
def chatStep (s : ChatState) (k : ChatKey) : ChatState :=
  if s.exitCode.isSome then s
  else if s.isProcessing then s
  else
    match k with
    | .ctrlC =>
        { s with rawMode := if s.isTTY then false else s.rawMode, exitCode := some 0 }
    | .metaB =>
        if 0 < s.cursorPosition then
          { s with cursorPosition :=
              (skipLeftWhile (fun c => c != ' ') s.currentInput.data
                (skipLeftWhile (fun c => c == ' ') s.currentInput.data s.cursorPosition)) }
        else s
    | .left =>
        if 0 < s.cursorPosition then { s with cursorPosition := s.cursorPosition - 1 }
        else s
    | .metaF =>
        if s.cursorPosition < s.currentInput.length then
          { s with cursorPosition :=
              (skipRightWhile (fun c => c != ' ') s.currentInput.data
                (skipRightWhile (fun c => c == ' ') s.currentInput.data s.cursorPosition)) }
        else s
    | .right =>
        if s.cursorPosition < s.currentInput.length then
          { s with cursorPosition := s.cursorPosition + 1 }
        else s
    | .tab => handleTab s
    | .backspace =>
        if 0 < s.cursorPosition then
          { s with currentInput := ⟨s.currentInput.data.take (s.cursorPosition - 1) ++
                                    s.currentInput.data.drop s.cursorPosition⟩
                   cursorPosition := s.cursorPosition - 1 }
        else s
    | .enter => handleReturn s
    | .char c =>
        { s with hasUserTypedOnce := true
                 currentInput := ⟨s.currentInput.data.take s.cursorPosition ++ [c] ++
                                  s.currentInput.data.drop s.cursorPosition⟩
                 cursorPosition := s.cursorPosition + 1 }
    | .other => s

/-- Continuation of the Enter branch once `agent.invoke` settles: success
records the assistant reply in `conversationHistory`, pops the thinking entry
(`chatHistory.pop()`) and pushes the assistant entry; failure pops the
thinking entry and pushes the inline error entry. Both clear `isProcessing`
and the buffer. -/
def resolveReply (s : ChatState) (outcome : Except String String) : ChatState :=
  match outcome with
  | .ok assistantContent =>
      { s with conversationHistory := s.conversationHistory ++
                 [{ timestamp := s.now, role := "assistant", content := assistantContent }]
               chatHistory := s.chatHistory.dropLast ++
                 [{ role := "assistant", content := assistantContent, isMarkdown := true }]
               isProcessing := false
               currentInput := "" }
  | .error e =>
      { s with chatHistory := s.chatHistory.dropLast ++
                 [{ role := "assistant", content := "Error: " ++ e }]
               isProcessing := false
               currentInput := "" }

/-- The transcript entry produced by a settled reply: the assistant entry on
success, the inline error entry on failure. -/
def replyMsg : Except String String → ChatMsg
  | .ok assistantContent =>
      { role := "assistant", content := assistantContent, isMarkdown := true }
  | .error e => { role := "assistant", content := "Error: " ++ e }

/-! ### Readline-based session line routing (`chat.js`, `rl.on('line')`) -/

/-- What the readline-based session does with one submitted line. -/
inductive LineAction where
  | reprompt
  | dispatch (commandName : String)
  | message (text : String)
deriving Repr, DecidableEq

/-- Routing of one submitted line: empty (after trim) input only re-prompts;
a line `getCommand` recognizes runs `executeCommand(cmd.name)`; anything
else becomes a chat message. -/
def routeLine (input : String) : LineAction :=
  let trimmed := jsTrim input
  if trimmed = "" then .reprompt
  else
    match getCommand trimmed with
    | some cmd => .dispatch cmd.name
    | none => .message trimmed

/-- The match predicate of `getCommand`. -/
def cmdMatches (normalized : String) (cmd : Command) : Bool :=
  cmd.name == normalized || cmd.aliases.contains normalized

/-- The `/quit` registry entry. -/
def cmdQuit : Command :=
  { name := "/quit", description := "Exit application (Ctrl+C)", aliases := ["/exit"] }

/-- A session state about to submit the message `a/b` (a non-empty,
non-command message that contains `/` after position 0). -/
def exampleSlashState : ChatState :=
  { chatHistory := []
    conversationHistory := []
    currentInput := "a/b"
    cursorPosition := 3
    hasUserTypedOnce := true
    isProcessing := false
    isTTY := true
    rawMode := true
    exitCode := none
    now := 7 }

/-! ## Helper lemmas -/

/-- A command-prefixed string is non-empty. -/
theorem length_pos_of_slash {t : String} (h : jsStartsWith t "/" = true) :
    0 < t.length := by
  unfold jsStartsWith at h
  have hd : ("/" : String).data = ['/'] := rfl
  rw [hd] at h
  cases ht : t.data with
  | nil => rw [ht] at h; simp [List.isPrefixOf] at h
  | cons c cs =>
      show 0 < t.data.length
      rw [ht]; simp

/-! ## C2 — palette candidates are exactly the prefix-filtered registry -/

/-- C2: for every buffer text `t` starting with the command prefix `/`, the
candidate list computed on a buffer change is exactly
`COMMANDS.filter (c => c.name.startsWith(lower t))`, in registry order (a
sublist of the registry, so no other entry appears and relative order is
preserved); the buffer-change hook indeed renders from that list. -/
theorem palette_candidates_eq_filter (t lastLine : String) (vis : Bool)
    (hpre : jsStartsWith t "/" = true) (hne : t ≠ lastLine) :
    filterCommands t = COMMANDS.filter (fun c => jsStartsWith c.name (jsToLower t)) ∧
    (filterCommands t).Sublist COMMANDS ∧
    onBufferChange t lastLine vis = renderDropdownAction t 0 vis := by
  refine ⟨rfl, List.filter_sublist _, ?_⟩
  have hlen : 0 < t.length := length_pos_of_slash hpre
  unfold onBufferChange
  rw [if_neg hne, if_pos]
  simp [hpre, hlen]

/-- Witness for C2 at the concrete buffer text `/q`. -/
theorem palette_candidates_eq_filter_witness :
    jsStartsWith "/q" "/" = true ∧ ("/q" : String) ≠ "" ∧
    filterCommands "/q" =
      COMMANDS.filter (fun c => jsStartsWith c.name (jsToLower "/q")) :=
  ⟨by decide, by decide,
   (palette_candidates_eq_filter "/q" "" false (by decide) (by decide)).1⟩

/-! ## C3 — navigation stays in range and wraps -/

/-- One dropdown navigation step preserves `selectedIndex < n`. -/
theorem dropdownNavStep_lt {n : Nat} (hn : 0 < n) {i : Nat} (hi : i < n)
    (k : NavKey) : dropdownNavStep n i k < n := by
  cases k <;> simp only [dropdownNavStep] <;> first
    | exact Nat.mod_lt _ hn
    | (split <;> omega)

/-- One select-prompt keypress preserves `selectedIndex < n`. -/
theorem selectPromptStep_lt {n : Nat} (hn : 0 < n) (isTTY wasRawMode : Bool)
    {s : SelectPromptState} (hs : s.selectedIndex < n) (k : PromptKey) :
    (selectPromptStep isTTY wasRawMode n s k).selectedIndex < n := by
  unfold selectPromptStep
  split
  · exact hs
  · cases k <;> simp only [] <;> first
      | exact Nat.mod_lt _ hn
      | (split <;> omega)
      | exact hs

/-- C3: for any candidate count `n > 0`, any starting index in `[0, n-1]`
and any finite keystroke sequence, the dropdown's and the select prompt's
`selectedIndex` stay in `[0, n-1]`; up from 0 wraps to `n-1` and down from
`n-1` wraps to 0, in both components. -/
theorem nav_index_in_range (n : Nat) (hn : 0 < n) (i : Nat) (hi : i < n)
    (ks : List NavKey) (isTTY wasRawMode : Bool) (pks : List PromptKey)
    (s : SelectPromptState) (hs : s.selectedIndex < n) :
    ks.foldl (dropdownNavStep n) i < n ∧
    (pks.foldl (selectPromptStep isTTY wasRawMode n) s).selectedIndex < n ∧
    dropdownNavStep n 0 .up = n - 1 ∧
    dropdownNavStep n (n - 1) .down = 0 ∧
    dropdownNavStep n 0 .kKey = n - 1 ∧
    dropdownNavStep n (n - 1) .jKey = 0 ∧
    (selectPromptStep isTTY wasRawMode n
      { s with selectedIndex := 0, promptVisible := true } .up).selectedIndex = n - 1 ∧
    (selectPromptStep isTTY wasRawMode n
      { s with selectedIndex := n - 1, promptVisible := true } .down).selectedIndex = 0 := by
  have hfold : ∀ (ks : List NavKey) (i : Nat), i < n → ks.foldl (dropdownNavStep n) i < n := by
    intro ks
    induction ks with
    | nil => intro i hi; exact hi
    | cons k ks ih => intro i hi; exact ih _ (dropdownNavStep_lt hn hi k)
  have hfold2 : ∀ (pks : List PromptKey) (s : SelectPromptState), s.selectedIndex < n →
      (pks.foldl (selectPromptStep isTTY wasRawMode n) s).selectedIndex < n := by
    intro pks
    induction pks with
    | nil => intro s hs; exact hs
    | cons k pks ih => intro s hs; exact ih _ (selectPromptStep_lt hn isTTY wasRawMode hs k)
  have hwrapDown : (n - 1 + 1) % n = 0 := by
    have : n - 1 + 1 = n := by omega
    rw [this, Nat.mod_self]
  refine ⟨hfold ks i hi, hfold2 pks s hs, by simp [dropdownNavStep],
    by simp [dropdownNavStep, hwrapDown], by simp [dropdownNavStep],
    by simp [dropdownNavStep, hwrapDown], ?_, ?_⟩
  · simp [selectPromptStep]
  · simp [selectPromptStep, hwrapDown]

/-- Witness for C3 at `n = 5` candidates, a concrete keystroke sequence, and
the initial select-prompt state. -/
theorem nav_index_in_range_witness :
    (0 : Nat) < 5 ∧ (2 : Nat) < 5 ∧
    [NavKey.down, .down, .up, .jKey, .kKey].foldl (dropdownNavStep 5) 2 < 5 :=
  ⟨by decide, by decide,
   (nav_index_in_range 5 (by decide) 2 (by decide)
     [NavKey.down, .down, .up, .jKey, .kKey] true false
     [PromptKey.down, .up, .enter] (initSelectPrompt true false 0) (by decide)).1⟩

/-! ## C7 — rendered cursor column -/

/-- C7: for every valid `(prefixLength = 2, cursorOffset)` pair the renderer
leaves the cursor at column `2 + cursorOffset + 1`; when no offset is passed
it defaults to the end of the input. -/
theorem render_cursor_column (currentInput : String) (cursorOffset : Nat)
    (_valid : cursorOffset ≤ currentInput.length) :
    renderCursorColumn currentInput (some cursorOffset) = 2 + cursorOffset + 1 ∧
    renderCursorColumn currentInput none = 2 + currentInput.length + 1 :=
  ⟨rfl, rfl⟩

/-- Witness for C7 at input `"hi"`, offset 1. -/
theorem render_cursor_column_witness :
    (1 : Nat) ≤ ("hi" : String).length ∧
    renderCursorColumn "hi" (some 1) = 4 :=
  ⟨by decide, (render_cursor_column "hi" 1 (by decide)).1⟩

/-! ## C10 — `getCommand` is normalizing and alias-aware -/

/-- `find?` returns exactly the unique member satisfying a pairwise-exclusive
predicate. -/
theorem find?_eq_some_of_mem {α : Type} {p : α → Bool} {l : List α}
    (hex : l.Pairwise (fun a b => p a = true → p b = true → False))
    {c : α} (hc : c ∈ l) (hpc : p c = true) : l.find? p = some c := by
  induction l with
  | nil => cases hc
  | cons a as ih =>
      rcases List.pairwise_cons.mp hex with ⟨ha, htail⟩
      rcases List.mem_cons.mp hc with rfl | hmem
      · exact List.find?_cons_of_pos _ hpc
      · have hpa : p a = false := by
          cases hp : p a
          · rfl
          · exact absurd hpc (ha c hmem hp)
        rw [List.find?_cons_of_neg _ (by simp [hpa])]
        exact ih htail hmem

/-- No two registry entries share a name or alias, so for any normalized
input at most one entry matches. -/
theorem commands_exclusive (normalized : String) :
    COMMANDS.Pairwise
      (fun a b => cmdMatches normalized a = true → cmdMatches normalized b = true → False) := by
  have hdisj : COMMANDS.Pairwise
      (fun a b => ∀ k, k ∈ a.name :: a.aliases → k ∉ b.name :: b.aliases) := by decide
  refine hdisj.imp ?_
  intro a b hab hma hmb
  have hka : normalized ∈ a.name :: a.aliases := by
    rcases Bool.or_eq_true_iff.mp hma with h | h
    · exact List.mem_cons.mpr (Or.inl (beq_iff_eq.mp h).symm)
    · exact List.mem_cons.mpr (Or.inr (List.mem_of_elem_eq_true h))
  have hkb : normalized ∈ b.name :: b.aliases := by
    rcases Bool.or_eq_true_iff.mp hmb with h | h
    · exact List.mem_cons.mpr (Or.inl (beq_iff_eq.mp h).symm)
    · exact List.mem_cons.mpr (Or.inr (List.mem_of_elem_eq_true h))
  exact hab normalized hka hkb

/-- `cmdMatches` unfolded to a proposition. -/
theorem cmdMatches_iff {normalized : String} {cmd : Command} :
    cmdMatches normalized cmd = true ↔
      (cmd.name = normalized ∨ normalized ∈ cmd.aliases) := by
  constructor
  · intro h
    rcases Bool.or_eq_true_iff.mp h with h | h
    · exact Or.inl (beq_iff_eq.mp h)
    · exact Or.inr (List.mem_of_elem_eq_true h)
  · intro h
    rcases h with h | h
    · exact Bool.or_eq_true_iff.mpr (Or.inl (beq_iff_eq.mpr h))
    · exact Bool.or_eq_true_iff.mpr (Or.inr (List.elem_eq_true_of_mem h))

/-- C10: `getCommand` lowercases and trims its input, returns the unique
registry entry whose name equals the normalized input or whose aliases
contain it, returns `none` when nothing matches, is invariant under
differences erased by normalization, and resolves `/exit` to `/quit`. -/
theorem getCommand_normalizing (s : String) (c : Command) :
    (getCommand s = some c ↔
      c ∈ COMMANDS ∧
        (c.name = jsTrim (jsToLower s) ∨ jsTrim (jsToLower s) ∈ c.aliases)) ∧
    (getCommand s = none ↔
      ∀ c' ∈ COMMANDS,
        c'.name ≠ jsTrim (jsToLower s) ∧ jsTrim (jsToLower s) ∉ c'.aliases) ∧
    (∀ t : String, jsTrim (jsToLower s) = jsTrim (jsToLower t) →
      getCommand s = getCommand t) ∧
    (getCommand "/exit").map (fun cmd => cmd.name) = some "/quit" := by
  refine ⟨?_, ?_, ?_, by decide⟩
  · rw [show getCommand s =
        COMMANDS.find? (cmdMatches (jsTrim (jsToLower s))) from rfl]
    constructor
    · intro h
      exact ⟨List.mem_of_find?_eq_some h, cmdMatches_iff.mp (List.find?_some h)⟩
    · intro ⟨hc, hm⟩
      exact find?_eq_some_of_mem (commands_exclusive _) hc (cmdMatches_iff.mpr hm)
  · rw [show getCommand s =
        COMMANDS.find? (cmdMatches (jsTrim (jsToLower s))) from rfl]
    rw [List.find?_eq_none]
    constructor
    · intro h c' hc'
      have := h c' hc'
      rw [cmdMatches_iff] at this
      exact ⟨fun he => this (Or.inl he), fun he => this (Or.inr he)⟩
    · intro h c' hc' hm
      rcases cmdMatches_iff.mp hm with he | he
      · exact (h c' hc').1 he
      · exact (h c' hc').2 he
  · intro t ht
    show COMMANDS.find? (cmdMatches (jsTrim (jsToLower s))) =
         COMMANDS.find? (cmdMatches (jsTrim (jsToLower t)))
    rw [ht]

/-- Witness for C10: `"  /EXIT "` normalizes to `/exit` and resolves to the
`/quit` entry. -/
theorem getCommand_normalizing_witness : getCommand "  /EXIT " = some cmdQuit :=
  (getCommand_normalizing "  /EXIT " cmdQuit).1.mpr ⟨by decide, by decide⟩

/-! ## C1 — modal prompt cleanup on every exit path -/

/-- C1 counterexample: start the select prompt on a TTY whose stdin was NOT
in raw mode (`wasRawMode = false`), so setup switches raw mode on; pressing
Ctrl-C removes the keypress listener and exits with code 0, but the handler
never calls `setRawMode(wasRawMode)` on this path — the terminal is still in
raw mode when the process exits, so the prior raw-mode state is not restored
on every exit path as claimed. -/
theorem modal_cleanup_counterexample :
    (selectPromptStep true false 2 (initSelectPrompt true false 0) .ctrlC).exitCode
      = some 0 ∧
    (selectPromptStep true false 2 (initSelectPrompt true false 0) .ctrlC).listenerAttached
      = false ∧
    ¬ (selectPromptStep true false 2 (initSelectPrompt true false 0) .ctrlC).rawMode
      = false := by
  decide

/-- C1 amended: on Enter and Escape both prompts remove the keypress
listener and restore the prior raw-mode state before resolving; on Ctrl-C
the select prompt removes the listener and exits with code 0 but leaves the
raw-mode flag as it was during the prompt instead of restoring the prior
state. -/
theorem modal_cleanup_amended (wasRawMode : Bool) (numOptions : Nat)
    (s : SelectPromptState) (hvis : s.promptVisible = true)
    (ts : TextPromptState) (hres : ts.resolved = false)
    (answer defaultValue : String) :
    ((selectPromptStep true wasRawMode numOptions s .enter).listenerAttached = false ∧
     (selectPromptStep true wasRawMode numOptions s .enter).rawMode = wasRawMode ∧
     (selectPromptStep true wasRawMode numOptions s .enter).resolved
        = some (some s.selectedIndex)) ∧
    ((selectPromptStep true wasRawMode numOptions s .escape).listenerAttached = false ∧
     (selectPromptStep true wasRawMode numOptions s .escape).rawMode = wasRawMode ∧
     (selectPromptStep true wasRawMode numOptions s .escape).resolved = some none) ∧
    ((selectPromptStep true wasRawMode numOptions s .ctrlC).listenerAttached = false ∧
     (selectPromptStep true wasRawMode numOptions s .ctrlC).exitCode = some 0 ∧
     (selectPromptStep true wasRawMode numOptions s .ctrlC).rawMode = s.rawMode) ∧
    ((textPromptAnswer true wasRawMode defaultValue ts answer).listenerAttached = false ∧
     (textPromptAnswer true wasRawMode defaultValue ts answer).rawMode = wasRawMode ∧
     (textPromptAnswer true wasRawMode defaultValue ts answer).result
        = some (some (textPromptValue answer defaultValue))) ∧
    ((textPromptEscape true wasRawMode ts).listenerAttached = false ∧
     (textPromptEscape true wasRawMode ts).rawMode = wasRawMode ∧
     (textPromptEscape true wasRawMode ts).result = some none) := by
  refine ⟨?_, ?_, ?_, ?_, ?_⟩ <;>
    simp [selectPromptStep, textPromptAnswer, textPromptEscape, hvis, hres]

/-- Witness for the amended C1 at the initial prompt states. -/
theorem modal_cleanup_amended_witness :
    (initSelectPrompt true false 1).promptVisible = true ∧
    (initTextPrompt true false).resolved = false ∧
    (selectPromptStep true false 3 (initSelectPrompt true false 1) .enter).rawMode
      = false :=
  ⟨by decide, by decide,
   (modal_cleanup_amended false 3 (initSelectPrompt true false 1) (by decide)
     (initTextPrompt true false) (by decide) " name " "default.txt").1.2.1⟩

/-! ## C6 — empty / whitespace-only submit is a no-op -/

/-- In an active session, pressing Enter dispatches to the `return` branch. -/
theorem chatStep_enter_eq_handleReturn (s : ChatState)
    (hexit : s.exitCode = none) (hproc : s.isProcessing = false) :
    chatStep s .enter = handleReturn s := by
  unfold chatStep
  rw [if_neg (by simp [hexit]), if_neg (by simp [hproc])]

/-- C6: submitting a buffer whose trimmed text is empty mutates neither
`chatHistory` nor `conversationHistory` nor `hasUserTypedOnce`, causes no
state transition (`isProcessing`, `exitCode`, raw mode unchanged) and only
re-renders with an empty buffer; the readline-based session likewise only
re-prompts on an empty line. -/
theorem empty_submit_noop (s : ChatState)
    (hexit : s.exitCode = none) (hproc : s.isProcessing = false)
    (hempty : jsTrim s.currentInput = "") :
    chatStep s .enter = { s with currentInput := "" } ∧
    (chatStep s .enter).chatHistory = s.chatHistory ∧
    (chatStep s .enter).conversationHistory = s.conversationHistory ∧
    (chatStep s .enter).hasUserTypedOnce = s.hasUserTypedOnce ∧
    (chatStep s .enter).isProcessing = s.isProcessing ∧
    (chatStep s .enter).exitCode = s.exitCode ∧
    (chatStep s .enter).rawMode = s.rawMode ∧
    (chatStep s .enter).currentInput = "" ∧
    (∀ input : String, jsTrim input = "" → routeLine input = .reprompt) := by
  have hmain : chatStep s .enter = { s with currentInput := "" } := by
    rw [chatStep_enter_eq_handleReturn s hexit hproc]
    unfold handleReturn
    rw [if_pos hempty]
  refine ⟨hmain, ?_, ?_, ?_, ?_, ?_, ?_, ?_, ?_⟩
  · rw [hmain]
  · rw [hmain]
  · rw [hmain]
  · rw [hmain]
  · rw [hmain]
  · rw [hmain]
  · rw [hmain]
  · intro input hin
    unfold routeLine
    rw [if_pos hin]

/-- Witness for C6 at a whitespace-only buffer. -/
theorem empty_submit_noop_witness :
    jsTrim "   " = "" ∧
    chatStep { exampleSlashState with currentInput := "   " } .enter
      = { exampleSlashState with currentInput := "" } :=
  ⟨by decide,
   (empty_submit_noop { exampleSlashState with currentInput := "   " }
     (by decide) (by decide) (by decide)).1⟩

/-! ## C4 — placeholder shown iff cold start; `typedOnce` is monotonic -/

/-- Tab completion never touches `hasUserTypedOnce`. -/
theorem handleTab_typedOnce (s : ChatState) :
    (handleTab s).hasUserTypedOnce = s.hasUserTypedOnce := by
  simp only [handleTab]
  split
  · split <;> rfl
  · rfl

/-- The Enter branch never resets `hasUserTypedOnce`. -/
theorem handleReturn_typedOnce (s : ChatState) (h : s.hasUserTypedOnce = true) :
    (handleReturn s).hasUserTypedOnce = true := by
  simp only [handleReturn]
  split_ifs <;> first | exact h | rfl

/-- `hasUserTypedOnce` is monotonic: no keypress ever resets it. -/
theorem chatStep_typedOnce_mono (s : ChatState) (k : ChatKey)
    (h : s.hasUserTypedOnce = true) : (chatStep s k).hasUserTypedOnce = true := by
  cases k <;> simp only [chatStep] <;> split_ifs <;>
    first
      | exact h
      | rfl
      | (rw [handleTab_typedOnce]; exact h)
      | exact handleReturn_typedOnce s h

/-- Reply resolution never touches `hasUserTypedOnce`. -/
theorem resolveReply_typedOnce (s : ChatState) (o : Except String String) :
    (resolveReply s o).hasUserTypedOnce = s.hasUserTypedOnce := by
  cases o <;> rfl

/-- A string has length 0 iff it is the empty string. -/
theorem string_length_eq_zero {u : String} : u.length = 0 ↔ u = "" := by
  cases u with
  | mk l =>
      cases l with
      | nil => exact ⟨fun _ => rfl, fun _ => rfl⟩
      | cons c cs =>
          constructor
          · intro h
            simp [String.length] at h
          · intro h
            have := congrArg String.data h
            simp at this

/-- C4: the renderer shows the placeholder iff `typedOnce` is false and the
input is empty; `typedOnce` is monotonic under every keypress sequence, so
once it is true no later render of the session shows the placeholder. -/
theorem placeholder_never_after_typed (t : Bool) (input : String)
    (s : ChatState) (ks : List ChatKey) (h : s.hasUserTypedOnce = true) :
    (showsPlaceholder t input = true ↔ (t = false ∧ input = "")) ∧
    (ks.foldl chatStep s).hasUserTypedOnce = true ∧
    showsPlaceholder (ks.foldl chatStep s).hasUserTypedOnce
      (ks.foldl chatStep s).currentInput = false ∧
    (∀ o : Except String String,
      (resolveReply (ks.foldl chatStep s) o).hasUserTypedOnce = true) := by
  have hmono : ∀ (ks : List ChatKey) (s : ChatState), s.hasUserTypedOnce = true →
      (ks.foldl chatStep s).hasUserTypedOnce = true := by
    intro ks
    induction ks with
    | nil => intro s hs; exact hs
    | cons k ks ih => intro s hs; exact ih _ (chatStep_typedOnce_mono s k hs)
  have h2 := hmono ks s h
  refine ⟨?_, h2, ?_, ?_⟩
  · unfold showsPlaceholder
    cases t
    · simp [string_length_eq_zero]
    · simp
  · unfold showsPlaceholder
    rw [h2]
    rfl
  · intro o
    rw [resolveReply_typedOnce]
    exact h2

/-- Witness for C4: after typing, deleting back to an empty buffer and
submitting, the placeholder is still suppressed. -/
theorem placeholder_never_after_typed_witness :
    exampleSlashState.hasUserTypedOnce = true ∧
    showsPlaceholder
      (([ChatKey.char 'x', .backspace, .enter].foldl chatStep exampleSlashState).hasUserTypedOnce)
      (([ChatKey.char 'x', .backspace, .enter].foldl chatStep exampleSlashState).currentInput)
      = false :=
  ⟨by decide,
   (placeholder_never_after_typed true "" exampleSlashState
     [ChatKey.char 'x', .backspace, .enter] (by decide)).2.2.1⟩

/-! ## C5 — transcript growth on a non-command submit -/

/-- C5 counterexample: submitting the non-empty, non-command message `a/b`
(it contains `/` after position 0) first pushes the command-hint entry, so
after the reply settles the transcript has grown by 3, not 2 — on the
success and on the failure path alike. -/
theorem submit_growth_counterexample :
    ¬ jsTrim exampleSlashState.currentInput = "" ∧
    getCommand exampleSlashState.currentInput = none ∧
    (resolveReply (chatStep exampleSlashState .enter) (.ok "reply")).chatHistory.length
      = exampleSlashState.chatHistory.length + 3 ∧
    (resolveReply (chatStep exampleSlashState .enter) (.error "boom")).chatHistory.length
      = exampleSlashState.chatHistory.length + 3 := by
  decide

/-- C5 amended: submitting a non-empty, non-command message appends exactly
one user entry followed by one transient thinking entry — preceded by one
hint entry when the message contains `/` without starting with it; when the
reply settles, the thinking entry is removed and exactly one assistant entry
(success) or one inline error entry (failure) is appended, so the transcript
grows by exactly 2, or by exactly 3 when the hint entry was added. -/
theorem submit_growth_amended (s : ChatState) (outcome : Except String String)
    (hexit : s.exitCode = none) (hproc : s.isProcessing = false)
    (ht : ¬ jsTrim s.currentInput = "")
    (h1 : ¬ jsToLower (jsTrim s.currentInput) = "/exit")
    (h2 : ¬ jsToLower (jsTrim s.currentInput) = "/quit")
    (h3 : ¬ jsToLower (jsTrim s.currentInput) = "/lang")
    (h4 : ¬ jsToLower (jsTrim s.currentInput) = "/export") :
    (chatStep s .enter).chatHistory =
      s.chatHistory ++
        (if jsIncludesChar (jsTrim s.currentInput) '/' &&
            !jsStartsWith (jsTrim s.currentInput) "/" then [hintMsg] else []) ++
        [{ role := "user", content := jsTrim s.currentInput },
         { role := "thinking", content := "Thinking..." }] ∧
    (resolveReply (chatStep s .enter) outcome).chatHistory =
      s.chatHistory ++
        (if jsIncludesChar (jsTrim s.currentInput) '/' &&
            !jsStartsWith (jsTrim s.currentInput) "/" then [hintMsg] else []) ++
        [{ role := "user", content := jsTrim s.currentInput }, replyMsg outcome] ∧
    (resolveReply (chatStep s .enter) outcome).chatHistory.length =
      s.chatHistory.length +
        (if jsIncludesChar (jsTrim s.currentInput) '/' &&
            !jsStartsWith (jsTrim s.currentInput) "/" then 3 else 2) := by
  have hstep : chatStep s .enter = handleReturn s :=
    chatStep_enter_eq_handleReturn s hexit hproc
  have hor : ¬ (jsToLower (jsTrim s.currentInput) = "/exit" ∨
                jsToLower (jsTrim s.currentInput) = "/quit") := by
    rintro (h | h)
    · exact h1 h
    · exact h2 h
  have hmid : (chatStep s .enter).chatHistory =
      (if jsIncludesChar (jsTrim s.currentInput) '/' &&
          !jsStartsWith (jsTrim s.currentInput) "/" then
        s.chatHistory ++ [hintMsg] else s.chatHistory) ++
      [{ role := "user", content := jsTrim s.currentInput },
       { role := "thinking", content := "Thinking..." }] := by
    rw [hstep]
    simp only [handleReturn]
    rw [if_neg ht, if_neg hor, if_neg h3, if_neg h4]
    split <;> rfl
  constructor
  · rw [hmid]
    split <;> simp
  constructor
  · cases outcome with
    | ok r =>
        show (chatStep s .enter).chatHistory.dropLast ++
          [({ role := "assistant", content := r, isMarkdown := true } : ChatMsg)] = _
        rw [hmid]
        split <;> simp [replyMsg]
    | error e =>
        show (chatStep s .enter).chatHistory.dropLast ++
          [({ role := "assistant", content := "Error: " ++ e } : ChatMsg)] = _
        rw [hmid]
        split <;> simp [replyMsg]
  · cases outcome with
    | ok r =>
        show ((chatStep s .enter).chatHistory.dropLast ++
          [({ role := "assistant", content := r, isMarkdown := true } : ChatMsg)]).length = _
        rw [hmid]
        split <;> simp
    | error e =>
        show ((chatStep s .enter).chatHistory.dropLast ++
          [({ role := "assistant", content := "Error: " ++ e } : ChatMsg)]).length = _
        rw [hmid]
        split <;> simp

/-- Witness for the amended C5 at the message `a/b` (hint case, failure
outcome): the transcript grows by 3. -/
theorem submit_growth_amended_witness :
    (resolveReply (chatStep exampleSlashState .enter) (.error "boom")).chatHistory.length
      = exampleSlashState.chatHistory.length +
          (if jsIncludesChar (jsTrim exampleSlashState.currentInput) '/' &&
              !jsStartsWith (jsTrim exampleSlashState.currentInput) "/" then 3 else 2) :=
  (submit_growth_amended exampleSlashState (.error "boom") (by decide) (by decide)
    (by decide) (by decide) (by decide) (by decide) (by decide)).2.2

/-! ## C9 — exact single-candidate match does not auto-dispatch -/

/-- On a command-prefixed changed line, the buffer-change hook defers to
`renderDropdown`. -/
theorem onBufferChange_slash {t lastLine : String} (vis : Bool)
    (hne : ¬ t = lastLine) (hs : jsStartsWith t "/" = true) :
    onBufferChange t lastLine vis = renderDropdownAction t 0 vis := by
  unfold onBufferChange
  rw [if_neg hne, if_pos (by simp [hs, length_pos_of_slash hs])]

/-- When the filter yields a single candidate, the dropdown update shows
exactly that candidate with index 0. -/
theorem renderDropdownAction_singleton {t : String} {c : Command}
    (h : filterCommands t = [c]) (vis : Bool) :
    renderDropdownAction t 0 vis = .showDropdown [c] 0 := by
  simp only [renderDropdownAction]
  rw [h]
  rfl

/-- C9 counterexample: with the buffer text `/quit` — which equals the name
of the single remaining candidate — the buffer-change hook merely renders the
one-candidate dropdown (its only possible effects are rendering or clearing;
it never invokes a command). The command is dispatched only by the Enter
(`line`) handler via `getCommand`, so no auto-dispatch without Enter
occurs. -/
theorem auto_dispatch_counterexample :
    filterCommands "/quit" = [cmdQuit] ∧
    jsToLower "/quit" = cmdQuit.name ∧
    onBufferChange "/quit" "/qui" true = .showDropdown [cmdQuit] 0 ∧
    ¬ onBufferChange "/quit" "/qui" true = .hideDropdown ∧
    routeLine "/quit" = .dispatch "/quit" := by
  decide

/-- C9 amended: when the buffer text exactly equals the name of the single
remaining candidate, the palette only renders that single candidate; the
command is dispatched when the user submits the line with Enter (resolved
through `getCommand`), not automatically. -/
theorem exact_match_not_auto_dispatched (t lastLine : String) (vis : Bool)
    (c : Command) (hc : c ∈ COMMANDS) (ht : t = c.name) (hne : ¬ t = lastLine)
    (hfil : filterCommands t = [c]) :
    onBufferChange t lastLine vis = .showDropdown [c] 0 ∧
    routeLine t = .dispatch c.name := by
  subst ht
  refine ⟨(onBufferChange_slash vis hne ?_).trans (renderDropdownAction_singleton hfil vis), ?_⟩ <;>
    (simp only [COMMANDS, List.mem_cons, List.mem_singleton, List.not_mem_nil, or_false] at hc;
     rcases hc with rfl | rfl | rfl | rfl | rfl <;> decide)

/-- Witness for the amended C9 at the buffer text `/quit`. -/
theorem exact_match_not_auto_dispatched_witness :
    onBufferChange "/quit" "/qui" false = .showDropdown [cmdQuit] 0 ∧
    routeLine "/quit" = .dispatch cmdQuit.name :=
  exact_match_not_auto_dispatched "/quit" "/qui" false cmdQuit (by decide) (by decide)
    (by decide) (by decide)

/-! ## C8 — text prompt resolution and the default export filename -/

/-- Decimal digit characters are digits and are none of the separator
characters the export-filename code replaces or splits on. -/
theorem digitChar_props : ∀ m < 10,
    (digitChar m).isDigit = true ∧
    ((digitChar m == ':' || digitChar m == '.') : Bool) = false ∧
    ((digitChar m == ':') : Bool) = false ∧
    ((digitChar m != 'T') : Bool) = true ∧
    ((digitChar m != ' ') : Bool) = true := by
  decide

/-- `digitChar_props` at the `k % 10` arguments produced by the pad
functions. -/
theorem digitChar_mod_props (k : Nat) :
    (digitChar (k % 10)).isDigit = true ∧
    ((digitChar (k % 10) == ':' || digitChar (k % 10) == '.') : Bool) = false ∧
    ((digitChar (k % 10) == ':') : Bool) = false ∧
    ((digitChar (k % 10) != 'T') : Bool) = true ∧
    ((digitChar (k % 10) != ' ') : Bool) = true :=
  digitChar_props (k % 10) (Nat.mod_lt _ (by norm_num))

/-- A map that fixes every element of a list is the identity on it. -/
theorem map_id_of_none {f : Char → Char} {l : List Char}
    (h : ∀ c ∈ l, f c = c) : l.map f = l := by
  induction l with
  | nil => rfl
  | cons a as ih =>
      rw [List.map_cons, h a (List.mem_cons_self a as),
          ih fun c hc => h c (List.mem_cons_of_mem a hc)]

/-- `takeWhile` keeps a prefix whose elements all satisfy the predicate and
stops exactly at a failing separator. -/
theorem takeWhile_append_stop {α : Type} {p : α → Bool} {l1 l2 : List α} {sep : α}
    (h1 : ∀ c ∈ l1, p c = true) (hsep : p sep = false) :
    (l1 ++ sep :: l2).takeWhile p = l1 := by
  induction l1 with
  | nil => simp [List.takeWhile_cons, hsep]
  | cons a as ih =>
      rw [List.cons_append, List.takeWhile_cons, h1 a (List.mem_cons_self a as),
          ih fun c hc => h1 c (List.mem_cons_of_mem a hc)]
      simp

theorem jsSplitHead_data (sep : Char) (s : String) :
    (jsSplitHead sep s).data = s.data.takeWhile (fun c => c != sep) := rfl

theorem jsReplaceChars_data (cls : Char → Bool) (r : Char) (s : String) :
    (jsReplaceChars cls r s).data = s.data.map (fun c => if cls c then r else c) := rfl

theorem string_data_append (a b : String) : (a ++ b).data = a.data ++ b.data := rfl

/-- The date half of the default filename: replacing `:` and `.` leaves the
ISO date part untouched and splitting at `T` keeps exactly `YYYY-MM-DD`. -/
theorem dateStr_data (d : JsDate) :
    (jsSplitHead 'T'
      (jsReplaceChars (fun c => c == ':' || c == '.') '-' (toISOString d))).data
      = (pad4 d.utcYear).data ++ ['-'] ++ (pad2 d.utcMonth).data ++ ['-'] ++
        (pad2 d.utcDay).data := by
  have hiso : (toISOString d).data =
      ((pad4 d.utcYear).data ++ ['-'] ++ (pad2 d.utcMonth).data ++ ['-'] ++ (pad2 d.utcDay).data)
      ++ 'T' :: ((pad2 d.utcHours).data ++ [':'] ++ (pad2 d.utcMinutes).data ++ [':'] ++
                 (pad2 d.utcSeconds).data ++ ['.'] ++ (pad3 d.utcMillis).data ++ ['Z']) := rfl
  rw [jsSplitHead_data, jsReplaceChars_data, hiso, List.map_append, List.map_cons]
  rw [show (if ('T' == ':' || 'T' == '.') = true then '-' else 'T') = 'T' from rfl]
  rw [map_id_of_none ?hid]
  case hid =>
    intro c hc
    simp only [pad4, pad2, List.append_assoc, List.mem_append, List.mem_cons,
      List.not_mem_nil, or_false, or_assoc] at hc
    rcases hc with rfl | rfl | rfl | rfl | rfl | rfl | rfl | rfl | rfl | rfl <;>
      first
        | (rw [if_neg]; rw [(digitChar_mod_props _).2.1]; exact Bool.false_ne_true)
        | rfl
  rw [takeWhile_append_stop ?hkeep rfl]
  case hkeep =>
    intro c hc
    simp only [pad4, pad2, List.append_assoc, List.mem_append, List.mem_cons,
      List.not_mem_nil, or_false, or_assoc] at hc
    rcases hc with rfl | rfl | rfl | rfl | rfl | rfl | rfl | rfl | rfl | rfl <;>
      first
        | exact (digitChar_mod_props _).2.2.2.1
        | rfl

/-- The time half of the default filename: splitting the time string at the
first space keeps `HH:MM:SS`, and replacing `:` yields `HH-MM-SS`. -/
theorem timeStr_data (d : JsDate) :
    (jsReplaceChars (fun c => c == ':') '-' (jsSplitHead ' ' (toTimeString d))).data
      = (pad2 d.localHours).data ++ ['-'] ++ (pad2 d.localMinutes).data ++ ['-'] ++
        (pad2 d.localSeconds).data := by
  have htime : (toTimeString d).data =
      ((pad2 d.localHours).data ++ [':'] ++ (pad2 d.localMinutes).data ++ [':'] ++
       (pad2 d.localSeconds).data) ++ ' ' :: d.tzSuffix.data := rfl
  rw [jsReplaceChars_data, jsSplitHead_data, htime]
  rw [takeWhile_append_stop ?hkeep rfl]
  case hkeep =>
    intro c hc
    simp only [pad2, List.append_assoc, List.mem_append, List.mem_cons,
      List.not_mem_nil, or_false, or_assoc] at hc
    rcases hc with rfl | rfl | rfl | rfl | rfl | rfl | rfl | rfl <;>
      first
        | exact (digitChar_mod_props _).2.2.2.2
        | rfl
  have hpadmap : ∀ n : Nat,
      (pad2 n).data.map (fun c => if c == ':' then '-' else c) = (pad2 n).data := by
    intro n
    apply map_id_of_none
    intro c hc
    simp only [pad2, List.mem_cons, List.not_mem_nil, or_false] at hc
    rcases hc with rfl | rfl <;>
      (rw [if_neg]; rw [(digitChar_mod_props _).2.2.1]; exact Bool.false_ne_true)
  simp only [List.map_append, hpadmap, List.map_cons, List.map_nil]
  rfl

/-- Shape matching is compositional over list concatenation. -/
theorem matchesShape_append {ps qs : List (Char → Bool)} {l m : List Char}
    (hp : matchesShape ps l = true) (hq : matchesShape qs m = true) :
    matchesShape (ps ++ qs) (l ++ m) = true := by
  induction ps generalizing l with
  | nil =>
      cases l with
      | nil => simpa using hq
      | cons c cs => simp [matchesShape] at hp
  | cons p ps ih =>
      cases l with
      | nil => simp [matchesShape] at hp
      | cons c cs =>
          simp only [List.cons_append, matchesShape, Bool.and_eq_true] at hp ⊢
          exact ⟨hp.1, ih hp.2⟩

/-- A literal segment matches its own equality predicates. -/
theorem matchesShape_literal (l : List Char) :
    matchesShape (l.map fun c => (· == c)) l = true := by
  induction l with
  | nil => rfl
  | cons c cs ih => simp [matchesShape, ih]

theorem pad2_shape (n : Nat) :
    matchesShape [Char.isDigit, Char.isDigit] (pad2 n).data = true := by
  simp [pad2, matchesShape, (digitChar_mod_props (n / 10)).1, (digitChar_mod_props n).1]

theorem pad4_shape (n : Nat) :
    matchesShape [Char.isDigit, Char.isDigit, Char.isDigit, Char.isDigit]
      (pad4 n).data = true := by
  simp [pad4, matchesShape, (digitChar_mod_props (n / 1000)).1,
    (digitChar_mod_props (n / 100)).1, (digitChar_mod_props (n / 10)).1,
    (digitChar_mod_props n).1]

theorem dash_shape : matchesShape [(· == '-')] ['-'] = true := by decide

/-- The default export filename always matches
`conversation-YYYY-MM-DD-HH-MM-SS.txt`. -/
theorem export_filename_pattern (d : JsDate) :
    matchesExportPattern (getDefaultExportFilename d) = true := by
  have hname : getDefaultExportFilename d =
      "conversation-" ++
        jsSplitHead 'T'
          (jsReplaceChars (fun c => c == ':' || c == '.') '-' (toISOString d)) ++
        "-" ++
        jsReplaceChars (fun c => c == ':') '-' (jsSplitHead ' ' (toTimeString d)) ++
        ".txt" := rfl
  have hdash : ("-" : String).data = ['-'] := rfl
  have hdata : (getDefaultExportFilename d).data =
      "conversation-".data ++ ((pad4 d.utcYear).data ++ (['-'] ++
        ((pad2 d.utcMonth).data ++ (['-'] ++ ((pad2 d.utcDay).data ++ (['-'] ++
        ((pad2 d.localHours).data ++ (['-'] ++ ((pad2 d.localMinutes).data ++ (['-'] ++
        ((pad2 d.localSeconds).data ++ ".txt".data))))))))))) := by
    rw [hname]
    simp only [string_data_append, dateStr_data, timeStr_data, hdash, List.append_assoc]
  unfold matchesExportPattern
  rw [hdata]
  show matchesShape
    (("conversation-".data.map (fun c => (· == c))) ++
     ([Char.isDigit, Char.isDigit, Char.isDigit, Char.isDigit] ++
      ([(· == '-')] ++ ([Char.isDigit, Char.isDigit] ++
       ([(· == '-')] ++ ([Char.isDigit, Char.isDigit] ++
        ([(· == '-')] ++ ([Char.isDigit, Char.isDigit] ++
         ([(· == '-')] ++ ([Char.isDigit, Char.isDigit] ++
          ([(· == '-')] ++ ([Char.isDigit, Char.isDigit] ++
           (".txt".data.map (fun c => (· == c)))))))))))))))
    ("conversation-".data ++ ((pad4 d.utcYear).data ++ (['-'] ++
      ((pad2 d.utcMonth).data ++ (['-'] ++ ((pad2 d.utcDay).data ++ (['-'] ++
      ((pad2 d.localHours).data ++ (['-'] ++ ((pad2 d.localMinutes).data ++ (['-'] ++
      ((pad2 d.localSeconds).data ++ ".txt".data)))))))))))) = true
  exact matchesShape_append (matchesShape_literal _)
    (matchesShape_append (pad4_shape _)
      (matchesShape_append dash_shape
        (matchesShape_append (pad2_shape _)
          (matchesShape_append dash_shape
            (matchesShape_append (pad2_shape _)
              (matchesShape_append dash_shape
                (matchesShape_append (pad2_shape _)
                  (matchesShape_append dash_shape
                    (matchesShape_append (pad2_shape _)
                      (matchesShape_append dash_shape
                        (matchesShape_append (pad2_shape _)
                          (matchesShape_literal _))))))))))))

/-- C8: the text prompt resolves to the trimmed input when that is non-empty
and to the supplied default when the input is blank (the `rl.question`
callback resolves `trim(answer) || defaultValue`); the default export
filename always matches the pattern `conversation-<date>-<time>.txt`. -/
theorem text_prompt_default_filename (answer defaultValue blank : String)
    (wasRawMode : Bool) (d : JsDate)
    (hne : ¬ jsTrim answer = "") (hblank : jsTrim blank = "") :
    textPromptValue answer defaultValue = jsTrim answer ∧
    textPromptValue blank defaultValue = defaultValue ∧
    (textPromptAnswer true wasRawMode defaultValue
        (initTextPrompt true wasRawMode) blank).result
      = some (some defaultValue) ∧
    matchesExportPattern (getDefaultExportFilename d) = true := by
  have hb : textPromptValue blank defaultValue = defaultValue := by
    unfold textPromptValue
    rw [if_pos hblank]
  refine ⟨?_, hb, ?_, export_filename_pattern d⟩
  · unfold textPromptValue
    rw [if_neg hne]
  · simp [textPromptAnswer, initTextPrompt, hb]

/-- Witness for C8 at a blank answer and a concrete date. -/
theorem text_prompt_default_filename_witness :
    textPromptValue "  " "conversation-x.txt" = "conversation-x.txt" ∧
    matchesExportPattern (getDefaultExportFilename
      { utcYear := 2026, utcMonth := 10, utcDay := 11, utcHours := 3, utcMinutes := 4,
        utcSeconds := 5, utcMillis := 6, localHours := 13, localMinutes := 14,
        localSeconds := 15, tzSuffix := "GMT+0000 (UTC)" }) = true :=
  ⟨(text_prompt_default_filename " f.txt " "conversation-x.txt" "  " false
      { utcYear := 2026, utcMonth := 10, utcDay := 11, utcHours := 3, utcMinutes := 4,
        utcSeconds := 5, utcMillis := 6, localHours := 13, localMinutes := 14,
        localSeconds := 15, tzSuffix := "GMT+0000 (UTC)" }
      (by decide) (by decide)).2.1,
   (text_prompt_default_filename " f.txt " "conversation-x.txt" "  " false
      { utcYear := 2026, utcMonth := 10, utcDay := 11, utcHours := 3, utcMinutes := 4,
        utcSeconds := 5, utcMillis := 6, localHours := 13, localMinutes := 14,
        localSeconds := 15, tzSuffix := "GMT+0000 (UTC)" }
      (by decide) (by decide)).2.2.2⟩

end YoutubeChat
